import Mathlib

/-!
Verification of the 100xEngineers Discovery Platform backend
(app/main.py, app/auth.py, app/database.py, app/models.py, app/search.py).

The FastAPI routes, the database adapter and the search formatter are
embedded as pure Lean functions.  The profiles table is a list of rows;
the external auth service and the external completion API are modelled as
explicit per-request inputs (the verification outcome of the presented
credential, and the completion reply text together with an abstract Python
evaluator for it).
-/

set_option autoImplicit false

namespace DiscoveryApp

/-- An HTTP error response: status code and detail message, as produced by
FastAPI HTTPException in app/main.py and app/auth.py. -/
structure HTTPError where
  status : Nat
  detail : String
  deriving DecidableEq, Repr

/-- Python-level exceptions the embedded database layer can raise:
apiError models postgrest.exceptions.APIError, nameError models the
NameError raised when an except clause mentions an unbound name,
valueError models ValueError, indexError models IndexError from data[0]. -/
inductive PyExc where
  | apiError (msg : String)
  | nameError (missing : String)
  | valueError (msg : String)
  | indexError
  deriving DecidableEq, Repr

/-- Python str(e) of an exception, as interpolated into HTTPException
details by the route handlers. -/
def pyExcStr : PyExc → String
  | .apiError msg => msg
  | .nameError missing => "name " ++ missing ++ " is not defined"
  | .valueError msg => msg
  | .indexError => "list index out of range"

/-- Outcome of presenting (or not presenting) a bearer credential to the
external auth service for one request: noHeader means no Authorization
header was sent, badToken means a token was sent but
supabase.auth.get_user raised, goodToken means verification succeeded and
returned the given email. -/
inductive AuthOutcome where
  | noHeader
  | badToken
  | goodToken (email : String)
  deriving DecidableEq, Repr

/-- app/auth.py get_current_user, composed with its
fastapi.security.HTTPBearer dependency.  HTTPBearer is constructed with
the default auto_error=True, so a request without an Authorization header
is rejected with HTTPException 403 before the function body runs; any
failure of supabase.auth.get_user(token) is caught and rethrown as
HTTPException 401 with detail "Invalid authentication credentials".  On
success the verified email is returned.  Every route that lists this as a
dependency runs it, including the routes annotated Optional[str]: FastAPI
resolves Depends(get_current_user) regardless of the annotation, and an
HTTPException raised by a dependency becomes the response. -/
def get_current_user : AuthOutcome → Except HTTPError String
  | .noHeader => .error ⟨403, "Not authenticated"⟩
  | .badToken => .error ⟨401, "Invalid authentication credentials"⟩
  | .goodToken email => .ok email

/-- app/models.py UserProfileCreate: the six caller-supplied profile
fields.  Pydantic validation drops every other key of the request body,
so a validated payload is exactly a value of this structure. -/
structure UserProfileCreate where
  name : String
  skills : List String
  bio : String
  projects : List String
  collaboration_interests : List String
  portfolio_url : String
  deriving DecidableEq, Repr

/-- A row of the profiles table (app/models.py UserProfile): the six
payload fields plus the backend-assigned id and the optional email and
user_id columns. -/
structure ProfileRow extends UserProfileCreate where
  id : String
  email : Option String
  user_id : Option String
  deriving DecidableEq, Repr

/-- The profiles table, in insertion order. -/
abbrev Store := List ProfileRow

/-- supabase select("*").eq("id", pid).single().execute(): with exactly
one matching row it returns that row; with zero or with several matching
rows it raises postgrest APIError PGRST116. -/
def single_execute (rows : List ProfileRow) : Except PyExc ProfileRow :=
  match rows with
  | [r] => .ok r
  | _ => .error (.apiError "PGRST116")

/-- app/database.py get_profile.  The try block runs the single-row
select.  Its first except clause is written
except postgrest.exceptions.APIError, but the name postgrest is never
imported in database.py, so when the select raises (no row with this id)
evaluating that clause raises NameError, and an exception raised while
matching an except clause skips the remaining clauses of the same try
statement.  Hence the documented return-None path is unreachable and the
function raises NameError instead. -/
def db_get_profile (store : Store) (pid : String) : Except PyExc (Option ProfileRow) :=
  match single_execute (store.filter (fun r => r.id == pid)) with
  | .ok r => .ok (some r)
  | .error _ => .error (.nameError "postgrest")

/-- app/database.py get_profile_by_email: select the rows whose email
column equals the given email and return the first, or None if there is
none. -/
def db_get_profile_by_email (store : Store) (email : String) : Option ProfileRow :=
  (store.filter (fun r => r.email == some email)).head?

/-- app/database.py create_profile, at the call site of the create route:
profile_data holds the six payload fields plus the caller email, so the
"email in profile_data" guard is always taken.  A duplicate email raises
ValueError before anything is inserted.  The backend-assigned id of the
inserted row is the parameter newId; supabase returns the inserted row as
response.data[0]. -/
def db_create_profile (store : Store) (newId : String) (p : UserProfileCreate)
    (email : String) : Except PyExc (ProfileRow × Store) :=
  match db_get_profile_by_email store email with
  | some _ => .error (.valueError "User already has a profile")
  | none =>
    let row : ProfileRow :=
      { toUserProfileCreate := p, id := newId, email := some email, user_id := none }
    .ok (row, store ++ [row])

/-- app/database.py update_profile writes p as the six allowed columns of
a row (the route passes profile.model_dump(), whose keys are exactly the
six allowed_fields, so the dict-comprehension filter keeps all of them).
The id, email and user_id columns are untouched. -/
def set_allowed_fields (r : ProfileRow) (p : UserProfileCreate) : ProfileRow :=
  { r with toUserProfileCreate := p }

/-- app/database.py update_profile at the update route's call site:
re-fetch the row by id (get_profile, with its NameError behaviour on a
missing row), raise ValueError if it returned None, write the allowed
columns of every row matching the id, and return response.data[0], the
first updated row (IndexError when the update matched no row). -/
def db_update_profile (store : Store) (pid : String) (p : UserProfileCreate) :
    Except PyExc (ProfileRow × Store) :=
  match db_get_profile store pid with
  | .error e => .error e
  | .ok none => .error (.valueError "Profile not found")
  | .ok (some _) =>
    let store' := store.map (fun r => if r.id == pid then set_allowed_fields r p else r)
    match (store.filter (fun r => r.id == pid)).map (fun r => set_allowed_fields r p) with
    | [] => .error .indexError
    | updated :: _ => .ok (updated, store')

/-- app/database.py delete_profile: delete every row matching the id and
return response.data[0], the first deleted row (IndexError when the
delete matched no row). -/
def db_delete_profile (store : Store) (pid : String) : Except PyExc (ProfileRow × Store) :=
  match store.filter (fun r => r.id == pid) with
  | [] => .error .indexError
  | r :: _ => .ok (r, store.filter (fun r => !(r.id == pid)))

/-- Python truthiness of the optional email column as tested by
existing_profile.get("email"): None and the empty string are falsy,
every other string is truthy. -/
def py_truthy : Option String → Bool
  | none => false
  | some s => !(s == "")

/-- The ownership check that both update_profile and delete_profile in
app/main.py perform verbatim: when existing_profile.get("email") is
truthy and existing_profile["email"] differs from current_user the
mutation is refused with 403, otherwise it proceeds. -/
def mutation_permitted (owner : Option String) (caller : String) : Bool :=
  if py_truthy owner then
    if !(owner == some caller) then false else true
  else true

/-- GET /api/profiles (app/main.py get_profiles).  The get_current_user
dependency resolves first and its HTTPException, if any, is the response;
the handler body then returns all rows (any database failure would map to
500 with str(e), a branch the embedded table never takes). -/
def get_profiles_endpoint (cred : AuthOutcome) (store : Store) :
    Except HTTPError (List ProfileRow) :=
  match get_current_user cred with
  | .error e => .error e
  | .ok _ => .ok store

/-- GET /api/profiles/(profile_id) (app/main.py get_profile).  Dependency
first; then database.get_profile; a returned None maps to 404
"Profile not found"; an HTTPException raised in the try block is
re-raised unchanged, and any other exception maps to 500
"Internal server error". -/
def get_profile_endpoint (cred : AuthOutcome) (store : Store) (pid : String) :
    Except HTTPError ProfileRow :=
  match get_current_user cred with
  | .error e => .error e
  | .ok _ =>
    match db_get_profile store pid with
    | .ok (some p) => .ok p
    | .ok none => .error ⟨404, "Profile not found"⟩
    | .error _ => .error ⟨500, "Internal server error"⟩

/-- POST /api/profiles (app/main.py create_profile).  Dependency first
(authentication required); the handler sets profile_dict["email"] to the
caller identity, calls database.create_profile, maps ValueError to 400
with str(e) and any other exception to 500 with str(e).  Returns the HTTP
outcome together with the resulting table. -/
def create_profile_endpoint (cred : AuthOutcome) (store : Store) (newId : String)
    (payload : UserProfileCreate) : Except HTTPError ProfileRow × Store :=
  match get_current_user cred with
  | .error e => (.error e, store)
  | .ok current_user =>
    match db_create_profile store newId payload current_user with
    | .error (.valueError msg) => (.error ⟨400, msg⟩, store)
    | .error e => (.error ⟨500, pyExcStr e⟩, store)
    | .ok (row, store') => (.ok row, store')

/-- PUT /api/profiles/(profile_id) (app/main.py update_profile).
Dependency first; then database.get_profile (whose NameError on a missing
row falls into the final except clause, 500 "Internal server error"); a
None profile maps to 404; the ownership check may raise 403
"Not authorized to update this profile", re-raised unchanged by
except HTTPException; otherwise database.update_profile runs (its result
row is a non-empty dict, so the "if not updated_profile" 404 branch is
not taken).  Returns the HTTP outcome together with the resulting
table. -/
def update_profile_endpoint (cred : AuthOutcome) (store : Store) (pid : String)
    (payload : UserProfileCreate) : Except HTTPError ProfileRow × Store :=
  match get_current_user cred with
  | .error e => (.error e, store)
  | .ok current_user =>
    match db_get_profile store pid with
    | .error _ => (.error ⟨500, "Internal server error"⟩, store)
    | .ok none => (.error ⟨404, "Profile not found"⟩, store)
    | .ok (some existing) =>
      if !(mutation_permitted existing.email current_user) then
        (.error ⟨403, "Not authorized to update this profile"⟩, store)
      else
        match db_update_profile store pid payload with
        | .error _ => (.error ⟨500, "Internal server error"⟩, store)
        | .ok (updated, store') => (.ok updated, store')

/-- DELETE /api/profiles/(profile_id) (app/main.py delete_profile).  Same
shape as the update route: dependency, get_profile, 404 on None,
ownership check raising 403 "Not authorized to delete this profile",
then database.delete_profile and the success message
"Profile deleted successfully". -/
def delete_profile_endpoint (cred : AuthOutcome) (store : Store) (pid : String) :
    Except HTTPError String × Store :=
  match get_current_user cred with
  | .error e => (.error e, store)
  | .ok current_user =>
    match db_get_profile store pid with
    | .error _ => (.error ⟨500, "Internal server error"⟩, store)
    | .ok none => (.error ⟨404, "Profile not found"⟩, store)
    | .ok (some existing) =>
      if !(mutation_permitted existing.email current_user) then
        (.error ⟨403, "Not authorized to delete this profile"⟩, store)
      else
        match db_delete_profile store pid with
        | .error _ => (.error ⟨500, "Internal server error"⟩, store)
        | .ok (_, store') => (.ok "Profile deleted successfully", store')

/-- A Python value, as produced by evaluating the completion reply text or
held in a row of the fallback list built by app/search.py. -/
inductive PyValue where
  | int (n : Int)
  | str (s : String)
  | list (xs : List PyValue)
  | dict (kvs : List (String × PyValue))
  | pynone

/-- app/search.py search_with_llm, after the completion API has answered.
The prompt construction and the chat.completions.create call only
determine the reply text, which is a parameter here; evalFn abstracts the
Python eval applied to that text, returning the value the text evaluates
to, or none when eval raises.  The bare except around eval makes any
raise fall back to the list of all input profiles, each mapped to a dict
with the id and the constant reason "Fallback result", in input order.
A value that eval does produce is returned as-is, with no validation of
its shape. -/
def search_with_llm (evalFn : String → Option PyValue) (reply : String)
    (profiles : List ProfileRow) : PyValue :=
  match evalFn reply with
  | some v => v
  | none =>
    .list (profiles.map (fun p => .dict [("id", .str p.id), ("reason", .str "Fallback result")]))

/-- POST /api/search (app/main.py search_profiles): dependency first,
then all profiles are fetched and handed to search_with_llm. -/
def search_profiles_endpoint (cred : AuthOutcome) (store : Store)
    (evalFn : String → Option PyValue) (reply : String) : Except HTTPError PyValue :=
  match get_current_user cred with
  | .error e => .error e
  | .ok _ => .ok (search_with_llm evalFn reply store)

/-- Shape of one SearchMatch record as the spec describes it: a record
carrying an id and a reason. -/
def isMatchRecord : PyValue → Bool
  | .dict [("id", .str _), ("reason", .str _)] => true
  | _ => false

/-- Shape of a well-formed SearchMatch list as the spec describes it: a
sequence of records each carrying an id and a reason. -/
def isMatchList : PyValue → Bool
  | .list xs => xs.all isMatchRecord
  | _ => false

/-- A database row for the column-level model of update_profile: the
table schema fixes the set of columns, so a row is read as a total map
from column name to stored value (absent columns read as none). -/
abbrev Row := String → Option PyValue

/-- A Python dict payload as passed to database.update_profile: ordered
key-value pairs, arbitrary keys allowed. -/
abbrev PyDict := List (String × PyValue)

/-- app/database.py update_profile, allowed_fields. -/
def allowed_fields : List String :=
  ["name", "skills", "bio", "projects", "collaboration_interests", "portfolio_url"]

/-- The dict comprehension in app/database.py update_profile: keep
exactly the pairs whose key is in allowed_fields. -/
def filter_allowed (d : PyDict) : PyDict :=
  d.filter (fun kv => allowed_fields.contains kv.1)

/-- Writing one column of a row, the effect of one key of a supabase
update payload. -/
def set_column (row : Row) (k : String) (v : PyValue) : Row :=
  fun k2 => if k2 == k then some v else row k2

/-- supabase .update(update_data) applied to one matching row: every pair
of the payload dict is written as a column. -/
def update_columns (row : Row) (d : PyDict) : Row :=
  d.foldl (fun r kv => set_column r kv.1 kv.2) row

/-- app/database.py update_profile, column-level effect on one stored
row: filter the payload dict to allowed_fields, then write the surviving
columns. -/
def db_update_row (row : Row) (d : PyDict) : Row :=
  update_columns row (filter_allowed d)

/-! Concrete sample data for the closed witnesses and counterexamples. -/

/-- A sample valid payload (the example payload of the spec). -/
def samplePayload : UserProfileCreate :=
  { name := "A", skills := ["x"], bio := "b", projects := [],
    collaboration_interests := [], portfolio_url := "https://a.dev" }

/-- A sample stored row owned by a@x.com. -/
def sampleRow : ProfileRow :=
  { toUserProfileCreate := samplePayload, id := "p1", email := some "a@x.com", user_id := none }

/-- A stored row whose owner email column holds the empty string. -/
def emptyOwnerRow : ProfileRow :=
  { toUserProfileCreate := samplePayload, id := "p2", email := some "", user_id := none }

/-- A second stored row whose owner email column holds the empty string. -/
def emptyOwnerRow2 : ProfileRow :=
  { toUserProfileCreate := samplePayload, id := "p3", email := some "", user_id := none }

/-! Helper lemmas shared by several developments. -/

/-- Writing one column leaves every other column unchanged. -/
theorem set_column_apply_ne (row : Row) (k k2 : String) (v : PyValue) (h : k2 ≠ k) :
    set_column row k2 v k = row k := by
  simp only [set_column, beq_iff_eq]
  exact if_neg (fun hk => h hk.symm)

/-- Applying a payload none of whose keys is k leaves column k unchanged. -/
theorem update_columns_apply_not_key (k : String) :
    ∀ (d : PyDict) (row : Row), (∀ kv ∈ d, kv.1 ≠ k) → update_columns row d k = row k := by
  intro d
  induction d with
  | nil => intro row _; rfl
  | cons a d ih =>
    intro row h
    have ha : a.1 ≠ k := h a (List.mem_cons_self a d)
    have hstep : update_columns row (a :: d) = update_columns (set_column row a.1 a.2) d := rfl
    rw [hstep, ih _ (fun kv hkv => h kv (List.mem_cons_of_mem a hkv)),
      set_column_apply_ne _ _ _ _ ha]

/-! C2.  For every query string and profile list, if parsing the
completion reply fails, the search returns exactly the input list mapped
to records with the profile id and the reason "Fallback result", in
input order. -/

/-- C2: when eval of the completion reply raises, search_with_llm returns
the input profiles, in order, each mapped to a record holding its id and
the constant reason "Fallback result": no ranking is applied. -/
theorem C2_fallback_on_parse_failure (evalFn : String → Option PyValue) (reply : String)
    (profiles : List ProfileRow) (h : evalFn reply = none) :
    search_with_llm evalFn reply profiles =
      .list (profiles.map (fun p =>
        .dict [("id", .str p.id), ("reason", .str "Fallback result")])) := by
  simp [search_with_llm, h]

/-- Witness for C2 at a concrete failing evaluator and one profile. -/
theorem C2_fallback_on_parse_failure_witness :
    (fun _ : String => (none : Option PyValue)) "not python" = none ∧
    search_with_llm (fun _ => none) "not python" [sampleRow] =
      .list [.dict [("id", .str "p1"), ("reason", .str "Fallback result")]] :=
  ⟨rfl, C2_fallback_on_parse_failure (fun _ => none) "not python" [sampleRow] rfl⟩

/-! C3.  The claim says a failed credential verification on the
optional-authentication routes is caught and the caller treated as
anonymous.  The code does the opposite: get_current_user raises and
FastAPI turns the dependency's HTTPException into the response, so the
request fails.  The routes' own descriptions say "Authentication is
optional", so this is a defect of the code, not of the claim. -/

/-- C3 (code defect): on the optional-authentication routes a failed
credential verification is not caught: the request fails with the
dependency's 401 (403 when no Authorization header is present) instead of
proceeding with an anonymous caller as the routes' own descriptions
state. -/
theorem C3_optional_auth_rejects (store : Store) (pid : String)
    (evalFn : String → Option PyValue) (reply : String) :
    get_profiles_endpoint .badToken store =
      .error ⟨401, "Invalid authentication credentials"⟩ ∧
    get_profile_endpoint .badToken store pid =
      .error ⟨401, "Invalid authentication credentials"⟩ ∧
    search_profiles_endpoint .badToken store evalFn reply =
      .error ⟨401, "Invalid authentication credentials"⟩ ∧
    get_profiles_endpoint .noHeader store = .error ⟨403, "Not authenticated"⟩ :=
  ⟨rfl, rfl, rfl, rfl⟩

/-! C4.  The claim says a nonexistent id yields 404 "Profile not found".
In database.get_profile the no-rows APIError is meant to be caught and
turned into None, but the except clause names the unimported postgrest
module, so a NameError is raised instead and the route returns 500.  The
route's declared 404 response and get_profile's docstring show 404 was
the intent, so this is a defect of the code. -/

/-- C4 (code defect): for every id with no matching row, the get route
returns 500 "Internal server error" instead of the documented 404
"Profile not found", because database.get_profile's no-rows handler
raises NameError (postgrest is unbound in database.py). -/
theorem C4_missing_profile_500 (email : String) (store : Store) (pid : String)
    (h : store.filter (fun r => r.id == pid) = []) :
    get_profile_endpoint (.goodToken email) store pid =
      .error ⟨500, "Internal server error"⟩ := by
  simp [get_profile_endpoint, get_current_user, db_get_profile, single_execute, h]

/-- Witness for C4 at an empty table and a concrete id. -/
theorem C4_missing_profile_500_witness :
    ([] : Store).filter (fun r => r.id == "missing") = [] ∧
    get_profile_endpoint (.goodToken "a@x.com") [] "missing" =
      .error ⟨500, "Internal server error"⟩ :=
  ⟨rfl, C4_missing_profile_500 "a@x.com" [] "missing" rfl⟩

/-! C7.  Duplicate email at creation time: the pre-insert existence check
raises ValueError, the route maps it to 400, and the table is returned
unchanged (nothing was inserted). -/

/-- C7: when the caller identity already owns a profile at the time of
the pre-insert check, creation fails with 400 "User already has a
profile" and the table is unchanged. -/
theorem C7_duplicate_email_rejected (store : Store) (newId : String)
    (payload : UserProfileCreate) (caller : String) (r : ProfileRow)
    (h : db_get_profile_by_email store caller = some r) :
    create_profile_endpoint (.goodToken caller) store newId payload =
      (.error ⟨400, "User already has a profile"⟩, store) := by
  simp [create_profile_endpoint, get_current_user, db_create_profile, h]

/-- Witness for C7: a@x.com already owns sampleRow. -/
theorem C7_duplicate_email_rejected_witness :
    db_get_profile_by_email [sampleRow] "a@x.com" = some sampleRow ∧
    create_profile_endpoint (.goodToken "a@x.com") [sampleRow] "p9" samplePayload =
      (.error ⟨400, "User already has a profile"⟩, [sampleRow]) :=
  ⟨rfl, C7_duplicate_email_rejected [sampleRow] "p9" samplePayload "a@x.com" sampleRow rfl⟩

/-! C8.  The claim says the search result is always either a well-formed
list of id/reason records or the fallback list.  The code returns
whatever value eval produces, with no shape validation, so a reply
evaluating to any other value is returned as-is. -/

/-- C8 counterexample: a completion reply that evaluates to the integer
42 makes the search operation return the integer 42, which is neither a
well-formed list of id/reason records nor the fallback list of the input
profile. -/
theorem C8_counterexample :
    search_with_llm (fun _ => some (.int 42)) "42" [sampleRow] = .int 42 ∧
    isMatchList (.int 42) = false ∧
    PyValue.int 42 ≠
      .list [.dict [("id", .str "p1"), ("reason", .str "Fallback result")]] :=
  ⟨rfl, rfl, fun h => PyValue.noConfusion h⟩

/-- C8 amended: the search operation returns either the value the
completion reply evaluates to — unvalidated, of any shape — or, exactly
when evaluation raises, the fallback list of all input profiles in input
order. -/
theorem C8_amended_eval_or_fallback (evalFn : String → Option PyValue) (reply : String)
    (profiles : List ProfileRow) :
    (∃ v, evalFn reply = some v ∧ search_with_llm evalFn reply profiles = v) ∨
    (evalFn reply = none ∧ search_with_llm evalFn reply profiles =
      .list (profiles.map (fun p =>
        .dict [("id", .str p.id), ("reason", .str "Fallback result")]))) := by
  cases h : evalFn reply with
  | none => exact Or.inr ⟨rfl, by simp [search_with_llm, h]⟩
  | some v => exact Or.inl ⟨v, rfl, by simp [search_with_llm, h]⟩

/-! C10.  database.update_profile filters the payload to allowed_fields
before writing, so only the six allowed columns can change; id, email and
user_id are not allowed and read unchanged, whatever extra keys the
payload dict carries. -/

/-- C10: a column outside allowed_fields — in particular id, email and
user_id — is unchanged by database.update_profile, for every stored row
and every payload dict, extra keys included. -/
theorem C10_update_frame (row : Row) (d : PyDict) (k : String)
    (h : allowed_fields.contains k = false) :
    db_update_row row d k = row k ∧
    db_update_row row d "id" = row "id" ∧
    db_update_row row d "email" = row "email" ∧
    db_update_row row d "user_id" = row "user_id" := by
  have main : ∀ k2 : String, allowed_fields.contains k2 = false →
      db_update_row row d k2 = row k2 := by
    intro k2 hk2
    apply update_columns_apply_not_key
    intro kv hkv
    have hmem := List.of_mem_filter hkv
    intro hk
    rw [hk, hk2] at hmem
    exact Bool.false_ne_true hmem
  exact ⟨main k h, main "id" rfl, main "email" rfl, main "user_id" rfl⟩

/-- Witness for C10: an update payload that tries to overwrite the email
column (plus an allowed key) leaves the stored email column unchanged. -/
theorem C10_update_frame_witness :
    allowed_fields.contains "email" = false ∧
    db_update_row (fun k => if k == "email" then some (.str "a@x.com") else none)
        [("email", .str "b@y.com"), ("name", .str "B")] "email" =
      (fun k => if k == "email" then some (.str "a@x.com") else none) "email" :=
  ⟨rfl, (C10_update_frame (fun k => if k == "email" then some (.str "a@x.com") else none)
    [("email", .str "b@y.com"), ("name", .str "B")] "email" rfl).1⟩

/-! Helper lemmas about the database layer under a unique matching row. -/

/-- When the table holds exactly one row matching the id, get_profile
returns it. -/
theorem db_get_profile_of_filter (store : Store) (pid : String) (row : ProfileRow)
    (h : store.filter (fun r => r.id == pid) = [row]) :
    db_get_profile store pid = .ok (some row) := by
  simp [db_get_profile, single_execute, h]

/-- When the table holds exactly one row matching the id, update_profile
returns that row with the six allowed columns replaced, inside the
updated table. -/
theorem db_update_profile_of_filter (store : Store) (pid : String)
    (p : UserProfileCreate) (row : ProfileRow)
    (h : store.filter (fun r => r.id == pid) = [row]) :
    db_update_profile store pid p =
      .ok (set_allowed_fields row p,
        store.map (fun r => if r.id == pid then set_allowed_fields r p else r)) := by
  simp [db_update_profile, db_get_profile_of_filter store pid row h, h]

/-- When the table holds exactly one row matching the id, delete_profile
returns that row and the table without the matching rows. -/
theorem db_delete_profile_of_filter (store : Store) (pid : String) (row : ProfileRow)
    (h : store.filter (fun r => r.id == pid) = [row]) :
    db_delete_profile store pid = .ok (row, store.filter (fun r => !(r.id == pid))) := by
  simp [db_delete_profile, h]

/-! Helper lemmas about the ownership check. -/

/-- A missing owner email permits any caller. -/
theorem mutation_permitted_none (caller : String) :
    mutation_permitted none caller = true := rfl

/-- An empty-string owner email is falsy, so it permits any caller. -/
theorem mutation_permitted_empty (caller : String) :
    mutation_permitted (some "") caller = true := rfl

/-- The owner itself is always permitted. -/
theorem mutation_permitted_self (caller : String) :
    mutation_permitted (some caller) caller = true := by
  by_cases h : caller = "" <;> simp [mutation_permitted, py_truthy, h]

/-- A non-empty owner email differing from the caller refuses the
mutation. -/
theorem mutation_permitted_some_ne (e caller : String) (he : e ≠ "") (hne : e ≠ caller) :
    mutation_permitted (some e) caller = false := by
  simp [mutation_permitted, py_truthy, he, hne]

/-! C1.  The claim states the ownership trichotomy as: absent owner email
permits, equal owner email permits, anything else is 403.  The code tests
existing_profile.get("email") for Python truthiness, so an owner email
that is recorded but equal to the empty string also permits, although it
is neither absent nor equal to the caller: the claim's "otherwise 403"
arm is wrong there.  The amended rule: a mutation is permitted exactly
when the recorded owner email is absent, empty, or equal to the caller's
identity, and both handlers apply this same rule. -/

/-- C1 counterexample: a profile whose recorded owner email is the empty
string — recorded (not absent) and different from the caller a@x.com, so
the claim's rule demands 403 — is updated successfully by that caller. -/
theorem C1_counterexample :
    emptyOwnerRow.email = some "" ∧
    (some "" : Option String) ≠ none ∧
    ("" : String) ≠ "a@x.com" ∧
    mutation_permitted (some "") "a@x.com" = true ∧
    (update_profile_endpoint (.goodToken "a@x.com") [emptyOwnerRow] "p2" samplePayload).1 =
      .ok (set_allowed_fields emptyOwnerRow samplePayload) := by
  refine ⟨rfl, by simp, by decide, rfl, rfl⟩

/-- C1 amended: with the caller's identity resolved and a unique matching
row, the update handler answers 403 exactly when the ownership check
refuses, the delete handler answers its 403 exactly when the same check
refuses, and the check permits exactly when the recorded owner email is
absent, empty, or equal to the caller's identity. -/
theorem C1_amended_ownership_rule (store : Store) (pid : String) (row : ProfileRow)
    (caller : String) (payload : UserProfileCreate)
    (hfilter : store.filter (fun r => r.id == pid) = [row]) :
    ((update_profile_endpoint (.goodToken caller) store pid payload).1 =
        .error ⟨403, "Not authorized to update this profile"⟩ ↔
      mutation_permitted row.email caller = false) ∧
    ((delete_profile_endpoint (.goodToken caller) store pid).1 =
        .error ⟨403, "Not authorized to delete this profile"⟩ ↔
      mutation_permitted row.email caller = false) ∧
    (mutation_permitted row.email caller = true ↔
      (row.email = none ∨ row.email = some "" ∨ row.email = some caller)) := by
  have hget := db_get_profile_of_filter store pid row hfilter
  have hupd := db_update_profile_of_filter store pid payload row hfilter
  have hdel := db_delete_profile_of_filter store pid row hfilter
  refine ⟨?_, ?_, ?_⟩
  · cases hperm : mutation_permitted row.email caller with
    | false => simp [update_profile_endpoint, get_current_user, hget, hperm]
    | true => simp [update_profile_endpoint, get_current_user, hget, hperm, hupd]
  · cases hperm : mutation_permitted row.email caller with
    | false => simp [delete_profile_endpoint, get_current_user, hget, hperm]
    | true => simp [delete_profile_endpoint, get_current_user, hget, hperm, hdel]
  · cases hrow : row.email with
    | none => simp [mutation_permitted_none]
    | some s =>
      by_cases hs : s = ""
      · subst hs
        simp [mutation_permitted_empty]
      · by_cases hc : s = caller
        · subst hc
          simp [mutation_permitted_self]
        · simp [mutation_permitted_some_ne s caller hs hc, hs, hc]

/-- Witness for the amended C1 at a concrete owned row and a non-owning
caller. -/
theorem C1_amended_ownership_rule_witness :
    [sampleRow].filter (fun r => r.id == "p1") = [sampleRow] ∧
    (((update_profile_endpoint (.goodToken "b@y.com") [sampleRow] "p1" samplePayload).1 =
        .error ⟨403, "Not authorized to update this profile"⟩ ↔
      mutation_permitted sampleRow.email "b@y.com" = false) ∧
    ((delete_profile_endpoint (.goodToken "b@y.com") [sampleRow] "p1").1 =
        .error ⟨403, "Not authorized to delete this profile"⟩ ↔
      mutation_permitted sampleRow.email "b@y.com" = false) ∧
    (mutation_permitted sampleRow.email "b@y.com" = true ↔
      (sampleRow.email = none ∨ sampleRow.email = some "" ∨
        sampleRow.email = some "b@y.com"))) :=
  ⟨rfl, C1_amended_ownership_rule [sampleRow] "p1" sampleRow "b@y.com" samplePayload rfl⟩

/-! C5.  The claim quantifies over every profile "that has a recorded
owner email".  A recorded owner email equal to the empty string is falsy
for the code's truthiness test, so a differing caller is not refused
there: the 403-and-no-mutation guarantee only holds for a non-empty
recorded owner email. -/

/-- C5 counterexample: a profile whose recorded owner email is the empty
string, mutated by the differing caller b@y.com: the delete succeeds and
the profile is gone, not Forbidden-and-still-retrievable as the claim
demands. -/
theorem C5_counterexample :
    emptyOwnerRow2.email = some "" ∧
    ("" : String) ≠ "b@y.com" ∧
    delete_profile_endpoint (.goodToken "b@y.com") [emptyOwnerRow2] "p3" =
      (.ok "Profile deleted successfully", []) := by
  refine ⟨rfl, by decide, rfl⟩

/-- C5 amended: for every profile with a non-empty recorded owner email
and every authenticated caller whose identity differs from it, the update
request answers 403 with the table unchanged, the delete request answers
403 with the table unchanged, and the profile is still retrievable
afterwards. -/
theorem C5_amended_no_partial_mutation (store : Store) (pid : String) (row : ProfileRow)
    (e caller : String) (payload : UserProfileCreate)
    (hfilter : store.filter (fun r => r.id == pid) = [row])
    (hemail : row.email = some e) (hne : e ≠ "") (hnc : e ≠ caller) :
    update_profile_endpoint (.goodToken caller) store pid payload =
      (.error ⟨403, "Not authorized to update this profile"⟩, store) ∧
    delete_profile_endpoint (.goodToken caller) store pid =
      (.error ⟨403, "Not authorized to delete this profile"⟩, store) ∧
    get_profile_endpoint (.goodToken caller) store pid = .ok row := by
  have hget := db_get_profile_of_filter store pid row hfilter
  have hperm : mutation_permitted row.email caller = false := by
    rw [hemail]
    exact mutation_permitted_some_ne e caller hne hnc
  refine ⟨?_, ?_, ?_⟩
  · simp [update_profile_endpoint, get_current_user, hget, hperm]
  · simp [delete_profile_endpoint, get_current_user, hget, hperm]
  · simp [get_profile_endpoint, get_current_user, hget]

/-- Witness for the amended C5: b@y.com fails to update or delete the
profile owned by a@x.com, which stays retrievable. -/
theorem C5_amended_no_partial_mutation_witness :
    [sampleRow].filter (fun r => r.id == "p1") = [sampleRow] ∧
    sampleRow.email = some "a@x.com" ∧
    ("a@x.com" : String) ≠ "" ∧
    ("a@x.com" : String) ≠ "b@y.com" ∧
    (update_profile_endpoint (.goodToken "b@y.com") [sampleRow] "p1" samplePayload =
      (.error ⟨403, "Not authorized to update this profile"⟩, [sampleRow]) ∧
    delete_profile_endpoint (.goodToken "b@y.com") [sampleRow] "p1" =
      (.error ⟨403, "Not authorized to delete this profile"⟩, [sampleRow]) ∧
    get_profile_endpoint (.goodToken "b@y.com") [sampleRow] "p1" = .ok sampleRow) :=
  ⟨rfl, rfl, by decide, by decide,
    C5_amended_no_partial_mutation [sampleRow] "p1" sampleRow "a@x.com" "b@y.com"
      samplePayload rfl rfl (by decide) (by decide)⟩

/-! C6.  Creating a profile stores the six payload fields with the email
column forced to the creating caller's identity (the payload schema
carries no email field, so a request-body email can never reach the
insert), and fetching the backend-assigned id returns that row. -/

/-- C6: for every payload and caller identity, when the caller owns no
profile yet and the backend-assigned id is fresh, creation returns the
row made of the payload fields with the new id and the caller's email,
appends exactly that row to the table, and fetching the returned id
yields the same row, equal to the payload on all submitted fields. -/
theorem C6_create_then_fetch (store : Store) (newId : String)
    (payload : UserProfileCreate) (caller : String)
    (hfresh : ∀ r ∈ store, r.id ≠ newId)
    (hnew : db_get_profile_by_email store caller = none) :
    let row : ProfileRow :=
      { toUserProfileCreate := payload, id := newId, email := some caller, user_id := none }
    create_profile_endpoint (.goodToken caller) store newId payload =
      (.ok row, store ++ [row]) ∧
    get_profile_endpoint (.goodToken caller) (store ++ [row]) newId = .ok row ∧
    row.toUserProfileCreate = payload ∧ row.id = newId ∧ row.email = some caller := by
  intro row
  have hfilter : (store ++ [row]).filter (fun r => r.id == newId) = [row] := by
    rw [List.filter_append]
    have h1 : store.filter (fun r => r.id == newId) = [] := by
      rw [List.filter_eq_nil_iff]
      intro a ha
      simp [hfresh a ha]
    have h2 : [row].filter (fun r => r.id == newId) = [row] := by
      simp [List.filter, row]
    rw [h1, h2]
    rfl
  refine ⟨?_, ?_, rfl, rfl, rfl⟩
  · simp [create_profile_endpoint, get_current_user, db_create_profile, hnew, row]
  · simp [get_profile_endpoint, get_current_user,
      db_get_profile_of_filter _ _ _ hfilter]

/-- Witness for C6: creating the spec's example payload as a@x.com in an
empty table and fetching the returned id p1. -/
theorem C6_create_then_fetch_witness :
    (∀ r ∈ ([] : Store), r.id ≠ "p1") ∧
    db_get_profile_by_email [] "a@x.com" = none ∧
    (create_profile_endpoint (.goodToken "a@x.com") [] "p1" samplePayload =
      (.ok sampleRow, [sampleRow]) ∧
    get_profile_endpoint (.goodToken "a@x.com") [sampleRow] "p1" = .ok sampleRow ∧
    sampleRow.toUserProfileCreate = samplePayload ∧ sampleRow.id = "p1" ∧
    sampleRow.email = some "a@x.com") :=
  ⟨fun r hr => absurd hr (List.not_mem_nil r), rfl,
    C6_create_then_fetch [] "p1" samplePayload "a@x.com"
      (fun r hr => absurd hr (List.not_mem_nil r)) rfl⟩

/-! C9.  The code tests the owner email column with Python truthiness, so
the empty string behaves exactly like an absent owner email: any
authenticated caller may update or delete such a profile. -/

/-- C9: for every authenticated caller and a profile whose recorded owner
email is the empty string, the ownership check decides as it does for an
absent owner email, the update succeeds, and the delete succeeds. -/
theorem C9_empty_owner_like_absent (store : Store) (pid : String) (row : ProfileRow)
    (caller : String) (payload : UserProfileCreate)
    (hfilter : store.filter (fun r => r.id == pid) = [row])
    (hemail : row.email = some "") :
    mutation_permitted (some "") caller = mutation_permitted none caller ∧
    update_profile_endpoint (.goodToken caller) store pid payload =
      (.ok (set_allowed_fields row payload),
        store.map (fun r => if r.id == pid then set_allowed_fields r payload else r)) ∧
    delete_profile_endpoint (.goodToken caller) store pid =
      (.ok "Profile deleted successfully", store.filter (fun r => !(r.id == pid))) := by
  have hget := db_get_profile_of_filter store pid row hfilter
  have hupd := db_update_profile_of_filter store pid payload row hfilter
  have hdel := db_delete_profile_of_filter store pid row hfilter
  have hperm : mutation_permitted row.email caller = true := by
    rw [hemail]
    exact mutation_permitted_empty caller
  refine ⟨rfl, ?_, ?_⟩
  · simp [update_profile_endpoint, get_current_user, hget, hperm, hupd]
  · simp [delete_profile_endpoint, get_current_user, hget, hperm, hdel]

/-- Witness for C9: the caller c@z.com updates and deletes the
empty-owner-email profile. -/
theorem C9_empty_owner_like_absent_witness :
    [emptyOwnerRow].filter (fun r => r.id == "p2") = [emptyOwnerRow] ∧
    emptyOwnerRow.email = some "" ∧
    (mutation_permitted (some "") "c@z.com" = mutation_permitted none "c@z.com" ∧
    update_profile_endpoint (.goodToken "c@z.com") [emptyOwnerRow] "p2" samplePayload =
      (.ok (set_allowed_fields emptyOwnerRow samplePayload),
        [emptyOwnerRow].map (fun r =>
          if r.id == "p2" then set_allowed_fields r samplePayload else r)) ∧
    delete_profile_endpoint (.goodToken "c@z.com") [emptyOwnerRow] "p2" =
      (.ok "Profile deleted successfully",
        [emptyOwnerRow].filter (fun r => !(r.id == "p2")))) :=
  ⟨rfl, rfl,
    C9_empty_owner_like_absent [emptyOwnerRow] "p2" emptyOwnerRow "c@z.com"
      samplePayload rfl rfl⟩

end DiscoveryApp
